import Mathlib

/-!
Shallow embedding of the `level-server` repository (Rust, axum + sqlx + Postgres).

`src/queries.rs` is embedded as seven string-building functions, character for
character. `src/main.rs`'s five HTTP handlers are embedded as state-passing
functions over an explicit database model: the database is an association list
from table key (the version token) to a table, a table is a SERIAL counter plus
a row list, and every SQL statement the handler issues is recorded in a trace
and may be failed by an externally supplied fault schedule (modelling
connection/engine failures). Handler results are `Except (Nat × String) α`,
the `Nat` being the HTTP status code (the code only ever produces 500).
-/

namespace LevelServer

/-! ## Query builder (src/queries.rs) -/

def get_object_by_id_sql (version : String) : String :=
  "SELECT * FROM objects_v" ++ version ++ " WHERE id = $1"

def get_objects_sql (version : String) : String :=
  "SELECT * FROM objects_v" ++ version

def delete_all_sql (version : String) : String :=
  "DELETE FROM objects_v" ++ version

def get_first_id_sql (version : String) : String :=
  "SELECT MIN(id) FROM objects_v" ++ version

def get_row_count_sql (version : String) : String :=
  "SELECT COUNT(*) AS row_count FROM objects_v" ++ version

def set_object_sql (version : String) : String :=
  "INSERT INTO objects_v" ++ version ++
    " (object_type, position, rotation, scale, collider) VALUES ($1, $2, $3, $4, $5)"

def create_table_sql (version : String) : String :=
  "CREATE TABLE IF NOT EXISTS objects_v" ++ version ++ " (\n        id SERIAL PRIMARY KEY,\n        object_type VARCHAR(255) NOT NULL,\n        position VARCHAR(255) NOT NULL,\n        scale VARCHAR(255) NOT NULL,\n        rotation VARCHAR(255) NOT NULL,\n        collider TEXT NOT NULL\n        )"

/-! ## Data model (src/main.rs structs) -/

structure LevelObject where
  id : Int
  object_type : String
  position : String
  rotation : String
  scale : String
  collider : String
deriving Repr, DecidableEq

structure SetLevelObjectRequest where
  version : String
  object_type : String
  position : String
  rotation : String
  scale : String
  collider : String
deriving Repr, DecidableEq

structure SetObjectsResonse where
  count : Int
  success : Bool
deriving Repr, DecidableEq

structure GetFirstIdResponse where
  id : Int
deriving Repr, DecidableEq

structure GetObjectsResponse where
  objects : List LevelObject
deriving Repr, DecidableEq

/-! ## Database model

A Postgres table `objects_v<version>`: a SERIAL id counter (`DELETE FROM` does
not reset it) and the stored rows in insertion order. The database maps table
keys (version tokens) to tables. -/

structure Table where
  next_id : Int
  rows : List LevelObject
deriving Repr, DecidableEq

abbrev Db := List (String × Table)

def dbLookup (db : Db) (v : String) : Option Table :=
  match db with
  | [] => none
  | (k, t) :: rest => if k = v then some t else dbLookup rest v

def dbUpdate (db : Db) (v : String) (t : Table) : Db :=
  match db with
  | [] => [(v, t)]
  | (k, u) :: rest => if k = v then (k, t) :: rest else (k, u) :: dbUpdate rest v t

/-- Engine-side state threaded through a handler run: the database, a fault
schedule (the n-th executed statement fails when the n-th entry is `true`;
past the end of the list statements do not fault), and the trace of SQL texts
sent to the engine. -/
structure EngineState where
  db : Db
  faults : List Bool
  trace : List String
deriving Repr, DecidableEq

/-- Execute one SQL statement: the text is always sent to the engine (recorded
in the trace), one fault-schedule entry is consumed, and on a fault the engine
reports a database error without touching the database. -/
def runStmt (sql : String) (s : EngineState)
    (act : Db → Except String (α × Db)) : Except String α × EngineState :=
  let fault := s.faults.headD false
  let s' : EngineState := { s with faults := s.faults.tail, trace := s.trace ++ [sql] }
  if fault then
    (.error "database error", s')
  else
    match act s.db with
    | .ok (a, db') => (.ok a, { s' with db := db' })
    | .error e => (.error e, s')

/-! Semantics of the individual statements against the database model.
Statements on a missing table fail, as in Postgres, except
`CREATE TABLE IF NOT EXISTS`, which creates it (SERIAL starts at 1). -/

def execCreateTable (v : String) (db : Db) : Except String (Unit × Db) :=
  match dbLookup db v with
  | some _ => .ok ((), db)
  | none => .ok ((), dbUpdate db v ⟨1, []⟩)

def execDeleteAll (v : String) (db : Db) : Except String (Unit × Db) :=
  match dbLookup db v with
  | none => .error "relation does not exist"
  | some t => .ok ((), dbUpdate db v { t with rows := [] })

def execCount (v : String) (db : Db) : Except String (Option Int × Db) :=
  match dbLookup db v with
  | none => .error "relation does not exist"
  | some t => .ok (some (t.rows.length : Int), db)

def execInsert (v object_type position rotation scale collider : String)
    (db : Db) : Except String (Unit × Db) :=
  match dbLookup db v with
  | none => .error "relation does not exist"
  | some t =>
    .ok ((), dbUpdate db v
      ⟨t.next_id + 1,
       t.rows ++ [⟨t.next_id, object_type, position, rotation, scale, collider⟩]⟩)

/-- `SELECT * ... WHERE id = $1` via `fetch_one`: sqlx reports `RowNotFound`
when no row matches. -/
def execSelectById (v : String) (id : Int) (db : Db) :
    Except String (LevelObject × Db) :=
  match dbLookup db v with
  | none => .error "relation does not exist"
  | some t =>
    match t.rows.find? (fun r => r.id == id) with
    | none => .error "no rows returned by a query that expected to return at least one row"
    | some r => .ok (r, db)

def execSelectAll (v : String) (db : Db) :
    Except String (List LevelObject × Db) :=
  match dbLookup db v with
  | none => .error "relation does not exist"
  | some t => .ok (t.rows, db)

/-- `SELECT MIN(id)`: over an empty table SQL `MIN` yields NULL, which
`query_scalar::<Option<i32>>` + `fetch_one` surfaces as `Ok(None)`. -/
def execMinId (v : String) (db : Db) : Except String (Option Int × Db) :=
  match dbLookup db v with
  | none => .error "relation does not exist"
  | some t =>
    .ok (t.rows.foldr (fun r acc =>
      match acc with
      | none => some r.id
      | some m => some (min r.id m)) none, db)

/-! ## HTTP handlers (src/main.rs) -/

/-- `internal_error`: maps any error into a 500 Internal Server Error pair. -/
def internal_error (err : String) : Nat × String := (500, err)

def internal_error_from_string (err_string : String) : Nat × String :=
  (500, err_string)

def get_object (version : String) (id : Int) (s : EngineState) :
    Except (Nat × String) LevelObject × EngineState :=
  let p := runStmt (get_object_by_id_sql version) s (execSelectById version id)
  match p.1 with
  | .ok object => (.ok object, p.2)
  | .error e => (.error (internal_error e), p.2)

def get_first_id (version : String) (s : EngineState) :
    Except (Nat × String) GetFirstIdResponse × EngineState :=
  let p := runStmt (get_first_id_sql version) s (execMinId version)
  match p.1.mapError internal_error with
  | .ok id_result =>
    match id_result with
    | some id => (.ok ⟨id⟩, p.2)
    | none => (.error (internal_error_from_string "No id found"), p.2)
  | .error e => (.error e, p.2)

def get_objects (version : String) (s : EngineState) :
    Except (Nat × String) GetObjectsResponse × EngineState :=
  let p := runStmt (get_objects_sql version) s (execSelectAll version)
  match p.1 with
  | .ok objects => (.ok ⟨objects⟩, p.2)
  | .error e => (.error (internal_error e), p.2)

/-- `set_object`: issues the INSERT, discards its result (`_set_result` in the
source), then issues the COUNT query and answers from it alone. -/
def set_object (req : SetLevelObjectRequest) (s : EngineState) :
    Except (Nat × String) SetObjectsResonse × EngineState :=
  let s1 := (runStmt (set_object_sql req.version) s
    (execInsert req.version req.object_type req.position req.rotation req.scale req.collider)).2
  let p := runStmt (get_row_count_sql req.version) s1 (execCount req.version)
  match p.1.mapError internal_error with
  | .ok count_op =>
    match count_op with
    | some count => (.ok ⟨count, true⟩, p.2)
    | none => (.error (500, "No count"), p.2)
  | .error (_, em) => (.error (internal_error_from_string em), p.2)

/-- The final `match` of `prepare_table` on the COUNT query's outcome. -/
def prepare_response (count_result : Except (Nat × String) (Option Int)) :
    Except (Nat × String) SetObjectsResonse :=
  match count_result with
  | .ok count_op =>
    match count_op with
    | some count =>
      if count = 0 then .ok ⟨count, true⟩
      else .ok ⟨count, false⟩
    | none => .error (500, "No count")
  | .error (_, em) => .error (internal_error_from_string em)

/-- `prepare_table`: issues CREATE TABLE and DELETE, discarding both results
(the source binds each to an unused `set_result`), then answers from the
COUNT query alone. -/
def prepare_table (version : String) (s : EngineState) :
    Except (Nat × String) SetObjectsResonse × EngineState :=
  let s1 := (runStmt (create_table_sql version) s (execCreateTable version)).2
  let s2 := (runStmt (delete_all_sql version) s1 (execDeleteAll version)).2
  let p := runStmt (get_row_count_sql version) s2 (execCount version)
  (prepare_response (p.1.mapError internal_error), p.2)

/-! ## Basic lemmas on the database model -/

theorem dbLookup_dbUpdate_self (db : Db) (v : String) (t : Table) :
    dbLookup (dbUpdate db v t) v = some t := by
  induction db with
  | nil => simp [dbLookup, dbUpdate]
  | cons hd tl ih =>
    obtain ⟨k, u⟩ := hd
    by_cases hk : k = v <;> simp [dbLookup, dbUpdate, hk, ih]

theorem dbLookup_dbUpdate_ne (db : Db) (v w : String) (t : Table) (h : w ≠ v) :
    dbLookup (dbUpdate db v t) w = dbLookup db w := by
  have hvw : v ≠ w := fun h' => h h'.symm
  induction db with
  | nil => simp [dbLookup, dbUpdate, hvw]
  | cons hd tl ih =>
    obtain ⟨k, u⟩ := hd
    by_cases hk : k = v
    · subst hk
      simp [dbLookup, dbUpdate, hvw]
    · simp [dbLookup, dbUpdate, hk, ih]

theorem dbUpdate_dbUpdate (db : Db) (v : String) (t t' : Table) :
    dbUpdate (dbUpdate db v t) v t' = dbUpdate db v t' := by
  induction db with
  | nil => simp [dbUpdate]
  | cons hd tl ih =>
    obtain ⟨k, u⟩ := hd
    by_cases hk : k = v <;> simp [dbUpdate, hk, ih]

theorem dbUpdate_lookup_eq (db : Db) (v : String) (t : Table)
    (h : dbLookup db v = some t) : dbUpdate db v t = db := by
  induction db with
  | nil => simp [dbLookup] at h
  | cons hd tl ih =>
    obtain ⟨k, u⟩ := hd
    by_cases hk : k = v
    · subst hk
      simp [dbLookup] at h
      simp [dbUpdate, h]
    · simp [dbLookup, hk] at h
      simp [dbUpdate, hk, ih h]

/-! ## Lemmas on statement execution -/

theorem runStmt_faults_tail (sql : String) (s : EngineState)
    (act : Db → Except String (α × Db)) :
    (runStmt sql s act).2.faults = s.faults.tail := by
  simp only [runStmt]
  split
  · rfl
  · split <;> rfl

theorem runStmt_trace (sql : String) (s : EngineState)
    (act : Db → Except String (α × Db)) :
    (runStmt sql s act).2.trace = s.trace ++ [sql] := by
  simp only [runStmt]
  split
  · rfl
  · split <;> rfl

/-- A faulted statement reports a database error. -/
theorem runStmt_fault (sql : String) (s : EngineState)
    (act : Db → Except String (α × Db)) (h : s.faults.headD false = true) :
    (runStmt sql s act).1 = .error "database error" := by
  simp only [runStmt, h]
  rfl

/-- A statement whose action never changes the database leaves the database
unchanged however the run goes. -/
theorem runStmt_db_readonly (sql : String) (s : EngineState)
    (act : Db → Except String (α × Db))
    (hact : ∀ db a db', act db = .ok (a, db') → db' = db) :
    (runStmt sql s act).2.db = s.db := by
  simp only [runStmt]
  split
  · rfl
  · split
    · rename_i a db' heq
      exact hact s.db a db' heq
    · rfl

theorem execCount_readonly (v : String) :
    ∀ db a db', execCount v db = .ok (a, db') → db' = db := by
  intro db a db' h
  unfold execCount at h
  split at h <;> simp_all

theorem execSelectById_readonly (v : String) (id : Int) :
    ∀ db a db', execSelectById v id db = .ok (a, db') → db' = db := by
  intro db a db' h
  unfold execSelectById at h
  split at h <;> try simp_all
  split at h <;> simp_all

theorem execSelectAll_readonly (v : String) :
    ∀ db a db', execSelectAll v db = .ok (a, db') → db' = db := by
  intro db a db' h
  unfold execSelectAll at h
  split at h <;> simp_all

theorem execMinId_readonly (v : String) :
    ∀ db a db', execMinId v db = .ok (a, db') → db' = db := by
  intro db a db' h
  unfold execMinId at h
  split at h <;> simp_all

/-- After any statement, the database is either untouched or is whatever the
statement's action produced on success. -/
theorem runStmt_db_cases (sql : String) (s : EngineState)
    (act : Db → Except String (α × Db)) :
    (runStmt sql s act).2.db = s.db ∨
      ∃ a, act s.db = .ok (a, (runStmt sql s act).2.db) := by
  simp only [runStmt]
  split
  · exact .inl rfl
  · split
    · rename_i a db' heq
      exact .inr ⟨a, heq⟩
    · exact .inl rfl

theorem execCreateTable_ok (v : String) (db db' : Db) (a : Unit)
    (h : execCreateTable v db = .ok (a, db')) :
    db' = db ∨ (dbLookup db v = none ∧ db' = dbUpdate db v ⟨1, []⟩) := by
  unfold execCreateTable at h
  split at h <;> simp_all

theorem execDeleteAll_ok (v : String) (db db' : Db) (a : Unit)
    (h : execDeleteAll v db = .ok (a, db')) :
    ∃ t, dbLookup db v = some t ∧ db' = dbUpdate db v { t with rows := [] } := by
  unfold execDeleteAll at h
  split at h <;> simp_all

theorem execInsert_ok (v o p r sc c : String) (db db' : Db) (a : Unit)
    (h : execInsert v o p r sc c db = .ok (a, db')) :
    ∃ t, dbLookup db v = some t ∧
      db' = dbUpdate db v ⟨t.next_id + 1, t.rows ++ [⟨t.next_id, o, p, r, sc, c⟩]⟩ := by
  unfold execInsert at h
  split at h <;> simp_all

/-! ## No-fault run characterizations -/

/-- The SERIAL counter the table for `v` carries after `CREATE TABLE IF NOT
EXISTS`: kept if the table exists, 1 if it was just created. -/
def ensuredNextId (db : Db) (v : String) : Int :=
  match dbLookup db v with
  | some t => t.next_id
  | none => 1

theorem prepare_table_no_fault (db : Db) (v : String) (tr : List String) :
    prepare_table v ⟨db, [], tr⟩ =
      (.ok ⟨0, true⟩,
       ⟨dbUpdate db v ⟨ensuredNextId db v, []⟩, [],
        tr ++ [create_table_sql v, delete_all_sql v, get_row_count_sql v]⟩) := by
  cases h : dbLookup db v with
  | none =>
    simp [prepare_table, runStmt, execCreateTable, execDeleteAll, execCount, h,
      dbLookup_dbUpdate_self, dbUpdate_dbUpdate, ensuredNextId, prepare_response,
      Except.mapError]
  | some t =>
    simp [prepare_table, runStmt, execCreateTable, execDeleteAll, execCount, h,
      dbLookup_dbUpdate_self, dbUpdate_dbUpdate, ensuredNextId, prepare_response,
      Except.mapError]

theorem set_object_no_fault (req : SetLevelObjectRequest) (db : Db) (tr : List String)
    (t : Table) (ht : dbLookup db req.version = some t) :
    set_object req ⟨db, [], tr⟩ =
      (.ok ⟨(t.rows.length : Int) + 1, true⟩,
       ⟨dbUpdate db req.version
          ⟨t.next_id + 1,
           t.rows ++ [⟨t.next_id, req.object_type, req.position, req.rotation,
             req.scale, req.collider⟩]⟩,
        [], tr ++ [set_object_sql req.version, get_row_count_sql req.version]⟩) := by
  simp [set_object, runStmt, execInsert, execCount, ht, dbLookup_dbUpdate_self,
    Except.mapError]

/-! ## Handler state shapes -/

theorem get_object_snd (v : String) (id : Int) (s : EngineState) :
    (get_object v id s).2
      = (runStmt (get_object_by_id_sql v) s (execSelectById v id)).2 := by
  simp only [get_object]
  split <;> rfl

theorem get_objects_snd (v : String) (s : EngineState) :
    (get_objects v s).2 = (runStmt (get_objects_sql v) s (execSelectAll v)).2 := by
  simp only [get_objects]
  split <;> rfl

theorem get_first_id_snd (v : String) (s : EngineState) :
    (get_first_id v s).2 = (runStmt (get_first_id_sql v) s (execMinId v)).2 := by
  simp only [get_first_id]
  split
  · split <;> rfl
  · rfl

theorem set_object_snd (req : SetLevelObjectRequest) (s : EngineState) :
    (set_object req s).2
      = (runStmt (get_row_count_sql req.version)
          (runStmt (set_object_sql req.version) s
            (execInsert req.version req.object_type req.position req.rotation
              req.scale req.collider)).2
          (execCount req.version)).2 := by
  simp only [set_object]
  split
  · split <;> rfl
  · rfl

theorem prepare_table_snd (v : String) (s : EngineState) :
    (prepare_table v s).2
      = (runStmt (get_row_count_sql v)
          (runStmt (delete_all_sql v)
            (runStmt (create_table_sql v) s (execCreateTable v)).2
            (execDeleteAll v)).2
          (execCount v)).2 := rfl

theorem get_object_db (v : String) (id : Int) (s : EngineState) :
    (get_object v id s).2.db = s.db := by
  rw [get_object_snd]
  exact runStmt_db_readonly _ _ _ (execSelectById_readonly v id)

theorem get_objects_db (v : String) (s : EngineState) :
    (get_objects v s).2.db = s.db := by
  rw [get_objects_snd]
  exact runStmt_db_readonly _ _ _ (execSelectAll_readonly v)

theorem get_first_id_db (v : String) (s : EngineState) :
    (get_first_id v s).2.db = s.db := by
  rw [get_first_id_snd]
  exact runStmt_db_readonly _ _ _ (execMinId_readonly v)

theorem set_object_db_cases (req : SetLevelObjectRequest) (s : EngineState) :
    (set_object req s).2.db = s.db ∨
      ∃ t, dbLookup s.db req.version = some t ∧
        (set_object req s).2.db = dbUpdate s.db req.version
          ⟨t.next_id + 1,
           t.rows ++ [⟨t.next_id, req.object_type, req.position, req.rotation,
             req.scale, req.collider⟩]⟩ := by
  rw [set_object_snd,
    runStmt_db_readonly _ _ _ (execCount_readonly req.version)]
  rcases runStmt_db_cases (set_object_sql req.version) s
      (execInsert req.version req.object_type req.position req.rotation
        req.scale req.collider) with h | ⟨a, ha⟩
  · exact .inl h
  · obtain ⟨t, ht, hdb⟩ := execInsert_ok _ _ _ _ _ _ _ _ a ha
    exact .inr ⟨t, ht, hdb⟩

theorem prepare_table_db_cases (v : String) (s : EngineState) :
    (prepare_table v s).2.db = s.db ∨
      ∃ n : Int, (prepare_table v s).2.db = dbUpdate s.db v ⟨n, []⟩ := by
  rw [prepare_table_snd,
    runStmt_db_readonly _ _ _ (execCount_readonly v)]
  have hd1 : (runStmt (create_table_sql v) s (execCreateTable v)).2.db = s.db ∨
      (runStmt (create_table_sql v) s (execCreateTable v)).2.db
        = dbUpdate s.db v ⟨1, []⟩ := by
    rcases runStmt_db_cases (create_table_sql v) s (execCreateTable v) with h1 | ⟨a1, ha1⟩
    · exact .inl h1
    · rcases execCreateTable_ok _ _ _ a1 ha1 with h | ⟨_, h⟩
      · exact .inl h
      · exact .inr h
  rcases runStmt_db_cases (delete_all_sql v)
      (runStmt (create_table_sql v) s (execCreateTable v)).2
      (execDeleteAll v) with h2 | ⟨a2, ha2⟩
  · rcases hd1 with h1 | h1
    · rw [h2, h1]
      exact .inl rfl
    · rw [h2, h1]
      exact .inr ⟨1, rfl⟩
  · obtain ⟨t, ht, h2⟩ := execDeleteAll_ok _ _ _ a2 ha2
    rcases hd1 with h1 | h1
    · rw [h2, h1]
      exact .inr ⟨t.next_id, rfl⟩
    · rw [h1, dbLookup_dbUpdate_self] at ht
      obtain rfl : t = ⟨1, []⟩ := (Option.some.inj ht).symm
      rw [h2, h1, dbUpdate_dbUpdate]
      exact .inr ⟨1, rfl⟩

/-! ## Row framing -/

def tableRows : Option Table → List LevelObject
  | none => []
  | some t => t.rows

/-- The only admissible effects on a table's row list: untouched, one row
appended, or bulk-cleared. In particular no in-place update and no
single-row delete. -/
def rowsFramed (before after : List LevelObject) : Prop :=
  after = before ∨ (∃ r, after = before ++ [r]) ∨ after = []

/-! ## Sequences of SetObject calls -/

/-- Run `k` consecutive `set_object` requests; the `i`-th request takes its
fields from `f i` with its version forced to `v`. -/
def runSets (v : String) (f : Nat → SetLevelObjectRequest) :
    Nat → EngineState → EngineState
  | 0, s => s
  | k + 1, s => (set_object { f k with version := v } (runSets v f k s)).2

theorem runSets_state (v : String) (f : Nat → SetLevelObjectRequest) (k : Nat)
    (s : EngineState) (t : Table)
    (ht : dbLookup s.db v = some t) (hf : s.faults = []) :
    ∃ t' : Table, dbLookup (runSets v f k s).db v = some t' ∧
      t'.rows.length = t.rows.length + k ∧ (runSets v f k s).faults = [] := by
  induction k with
  | zero => exact ⟨t, ht, by simp, hf⟩
  | succ k ih =>
    obtain ⟨t', ht', hlen, hf'⟩ := ih
    cases hE : runSets v f k s with
    | mk db1 fl1 tr1 =>
      rw [hE] at ht' hf'
      simp only at ht' hf'
      subst hf'
      have hstep := set_object_no_fault { f k with version := v } db1 tr1 t' ht'
      refine ⟨⟨t'.next_id + 1,
        t'.rows ++ [⟨t'.next_id, (f k).object_type, (f k).position, (f k).rotation,
          (f k).scale, (f k).collider⟩]⟩, ?_, ?_, ?_⟩
      · simp only [runSets, hE, hstep]
        exact dbLookup_dbUpdate_self _ _ _
      · simp only [List.length_append, List.length_cons, List.length_nil, hlen]
        omega
      · simp only [runSets, hE, hstep]

/-! ## Concrete fixtures -/

def rowA : LevelObject := ⟨1, "tree", "1,2,3", "0,0,0,1", "1,1,1", "box:1,1,1"⟩

def rowB : LevelObject := ⟨2, "rock", "4,5,6", "0,0,0,1", "2,2,2", "sphere:1"⟩

def rowC : LevelObject := ⟨3, "lamp", "7,8,9", "0,0,0,1", "1,1,1", "capsule:1,2"⟩

def reqX : SetLevelObjectRequest := ⟨"1", "rock", "4,5,6", "0,0,0,1", "2,2,2", "sphere:1"⟩

def injectionVersion : String := "x; DROP TABLE objects_vx; --"

/-! ## Claims -/

/-- C1 (status: code_bug), evaluated at the failing input: a Prepare request
whose version token contains a semicolon and whitespace is not rejected — the
handler builds all three SQL texts around the raw token, sends them to the
engine (they appear in the trace, semicolon and spaces included), and returns
a plain success, with no validation error before the database calls. -/
theorem c1_unsafe_token_reaches_sql :
    (prepare_table injectionVersion ⟨[], [], []⟩).1 = .ok ⟨0, true⟩ ∧
    (prepare_table injectionVersion ⟨[], [], []⟩).2.trace
      = [create_table_sql injectionVersion, delete_all_sql injectionVersion,
         get_row_count_sql injectionVersion] ∧
    ';' ∈ (delete_all_sql injectionVersion).data ∧
    ' ' ∈ (delete_all_sql injectionVersion).data := by
  refine ⟨?_, ?_, by decide, by decide⟩
  · rw [prepare_table_no_fault]
  · rw [prepare_table_no_fault]
    simp

/-- C2 (status: code_bug), evaluated at the failing input: when the INSERT
statement fails, set_object nevertheless executes the row-count query (both
statements appear in the trace) and returns the count as a success response
instead of surfacing the insert failure. -/
theorem c2_failed_insert_still_counts :
    (set_object reqX ⟨[("1", ⟨4, [rowA, rowB, rowC]⟩)], [true], []⟩).1
      = .ok ⟨3, true⟩ ∧
    (set_object reqX ⟨[("1", ⟨4, [rowA, rowB, rowC]⟩)], [true], []⟩).2.trace
      = [set_object_sql "1", get_row_count_sql "1"] :=
  ⟨rfl, rfl⟩

/-- C3 (status: code_bug), evaluated at the failing inputs: a GetObject miss,
a GetFirstId on an empty table, and genuine database failures of the same
requests all surface with the identical status code 500 — not-found is not a
distinct HTTP status category from internal failure. -/
theorem c3_not_found_conflated_with_internal :
    (get_object "1" 7 ⟨[("1", ⟨1, []⟩)], [], []⟩).1
      = .error (500, "no rows returned by a query that expected to return at least one row") ∧
    (get_first_id "1" ⟨[("1", ⟨1, []⟩)], [], []⟩).1 = .error (500, "No id found") ∧
    (get_object "1" 7 ⟨[("1", ⟨1, []⟩)], [true], []⟩).1 = .error (500, "database error") ∧
    (get_first_id "1" ⟨[("1", ⟨1, []⟩)], [true], []⟩).1 = .error (500, "database error") :=
  ⟨rfl, rfl, rfl, rfl⟩

/-- C4 counterexample: with an existing one-row table, a run in which the
DELETE statement fails while CREATE TABLE and COUNT succeed makes
prepare_table return a success response (count 1, success false) rather than
an internal error — refuting the claim that failure of any of the three
statements yields an error. -/
theorem c4_counterexample :
    (prepare_table "1" ⟨[("1", ⟨2, [rowA]⟩)], [false, true, false], []⟩).1
      = .ok ⟨1, false⟩ := rfl

/-- C4 as amended: only a failure of the final COUNT query is surfaced (as a
500 internal error); the results of the CREATE TABLE and DELETE statements
are discarded, whatever they are. -/
theorem c4_amended_count_failure_is_error (db : Db) (v : String)
    (f1 f2 : Bool) (tr : List String) :
    (prepare_table v ⟨db, [f1, f2, true], tr⟩).1 = .error (500, "database error") := by
  simp only [prepare_table]
  rw [runStmt_fault]
  · rfl
  · rw [runStmt_faults_tail, runStmt_faults_tail]
    rfl

/-- C5: a Prepare run in which every statement succeeds answers
{count 0, success true} when the post-clear count is zero, and the final
response match yields the normal (non-error) response {count, success false}
on any nonzero observed count. -/
theorem c5_prepare_success_response :
    (∀ (db : Db) (v : String),
      (prepare_table v ⟨db, [], []⟩).1 = .ok ⟨0, true⟩) ∧
    (∀ c : Int, c ≠ 0 → prepare_response (.ok (some c)) = .ok ⟨c, false⟩) := by
  constructor
  · intro db v
    rw [prepare_table_no_fault]
  · intro c hc
    simp [prepare_response, hc]

/-- Witness for C5: both branches at concrete inputs. -/
theorem c5_witness :
    (prepare_table "1" ⟨[], [], []⟩).1 = .ok ⟨0, true⟩ ∧
    prepare_response (.ok (some 3)) = .ok ⟨3, false⟩ :=
  ⟨c5_prepare_success_response.1 [] "1", c5_prepare_success_response.2 3 (by decide)⟩

/-- C6: for every version string v, each of the seven query builders returns
exactly its declared SQL shape with v appended verbatim to the table-name
prefix objects_v; v is the only interpolated value — the id and the five
object fields occur in the text only as the bind placeholders. -/
theorem c6_query_builders_exact (v : String) :
    get_object_by_id_sql v = "SELECT * FROM objects_v" ++ v ++ " WHERE id = $1" ∧
    get_objects_sql v = "SELECT * FROM objects_v" ++ v ∧
    delete_all_sql v = "DELETE FROM objects_v" ++ v ∧
    get_first_id_sql v = "SELECT MIN(id) FROM objects_v" ++ v ∧
    get_row_count_sql v = "SELECT COUNT(*) AS row_count FROM objects_v" ++ v ∧
    set_object_sql v = "INSERT INTO objects_v" ++ v ++
      " (object_type, position, rotation, scale, collider) VALUES ($1, $2, $3, $4, $5)" ∧
    create_table_sql v = "CREATE TABLE IF NOT EXISTS objects_v" ++ v ++
      " (\n        id SERIAL PRIMARY KEY,\n        object_type VARCHAR(255) NOT NULL,\n        position VARCHAR(255) NOT NULL,\n        scale VARCHAR(255) NOT NULL,\n        rotation VARCHAR(255) NOT NULL,\n        collider TEXT NOT NULL\n        )" :=
  ⟨rfl, rfl, rfl, rfl, rfl, rfl, rfl⟩

/-- C7: Prepare is idempotent — with all statements succeeding, both of two
consecutive runs on the same version return {count 0, success true}, the
table is empty after each run, and the database state after the second run
equals the state after the first. -/
theorem c7_prepare_idempotent (db : Db) (v : String) :
    (prepare_table v ⟨db, [], []⟩).1 = .ok ⟨0, true⟩ ∧
    (prepare_table v ⟨(prepare_table v ⟨db, [], []⟩).2.db, [], []⟩).1 = .ok ⟨0, true⟩ ∧
    (prepare_table v ⟨(prepare_table v ⟨db, [], []⟩).2.db, [], []⟩).2.db
      = (prepare_table v ⟨db, [], []⟩).2.db ∧
    (dbLookup (prepare_table v ⟨db, [], []⟩).2.db v).map Table.rows = some [] ∧
    (dbLookup
      (prepare_table v ⟨(prepare_table v ⟨db, [], []⟩).2.db, [], []⟩).2.db v).map
        Table.rows = some [] := by
  have hdb1 : (prepare_table v ⟨db, [], []⟩).2.db
      = dbUpdate db v ⟨ensuredNextId db v, []⟩ := by
    rw [prepare_table_no_fault]
  have hnext : ensuredNextId (dbUpdate db v ⟨ensuredNextId db v, []⟩) v
      = ensuredNextId db v := by
    simp [ensuredNextId, dbLookup_dbUpdate_self]
  have hdb2 : (prepare_table v ⟨(prepare_table v ⟨db, [], []⟩).2.db, [], []⟩).2.db
      = dbUpdate db v ⟨ensuredNextId db v, []⟩ := by
    rw [hdb1, prepare_table_no_fault]
    simp only
    rw [hnext, dbUpdate_dbUpdate]
  refine ⟨?_, ?_, ?_, ?_, ?_⟩
  · rw [prepare_table_no_fault]
  · rw [hdb1, prepare_table_no_fault]
  · rw [hdb2, hdb1]
  · rw [hdb1, dbLookup_dbUpdate_self]
    rfl
  · rw [hdb2, dbLookup_dbUpdate_self]
    rfl

/-- C8: from a freshly prepared (hence empty) table, running k successful
SetObject requests and then one more, the response of that (k+1)-st request —
the N-th request for N = k+1 ≥ 1 — carries count N. -/
theorem c8_nth_insert_count (db : Db) (v : String)
    (f : Nat → SetLevelObjectRequest) (k : Nat) :
    (set_object { f k with version := v }
        (runSets v f k ⟨(prepare_table v ⟨db, [], []⟩).2.db, [], []⟩)).1
      = .ok ⟨(k : Int) + 1, true⟩ := by
  have hlook : dbLookup (prepare_table v ⟨db, [], []⟩).2.db v
      = some ⟨ensuredNextId db v, []⟩ := by
    rw [prepare_table_no_fault]
    simp only
    exact dbLookup_dbUpdate_self _ _ _
  obtain ⟨t', ht', hlen, hf'⟩ := runSets_state v f k
    ⟨(prepare_table v ⟨db, [], []⟩).2.db, [], []⟩ ⟨ensuredNextId db v, []⟩ hlook rfl
  simp only [List.length_nil, Nat.zero_add] at hlen
  cases hE : runSets v f k ⟨(prepare_table v ⟨db, [], []⟩).2.db, [], []⟩ with
  | mk db1 fl1 tr1 =>
    rw [hE] at ht' hf'
    simp only at ht' hf'
    subst hf'
    rw [set_object_no_fault { f k with version := v } db1 tr1 t' ht', hlen]

/-- C9: for every handler execution and every table, the row list afterwards
is the old list unchanged, the old list with one appended row, or empty — the
only mutations are SetObject's single append and Prepare's bulk clear; no
in-place update, no single-row delete. -/
theorem c9_handlers_frame_rows (s : EngineState) (w : String) :
    (∀ version id, rowsFramed (tableRows (dbLookup s.db w))
        (tableRows (dbLookup (get_object version id s).2.db w))) ∧
    (∀ version, rowsFramed (tableRows (dbLookup s.db w))
        (tableRows (dbLookup (get_objects version s).2.db w))) ∧
    (∀ version, rowsFramed (tableRows (dbLookup s.db w))
        (tableRows (dbLookup (get_first_id version s).2.db w))) ∧
    (∀ req, rowsFramed (tableRows (dbLookup s.db w))
        (tableRows (dbLookup (set_object req s).2.db w))) ∧
    (∀ version, rowsFramed (tableRows (dbLookup s.db w))
        (tableRows (dbLookup (prepare_table version s).2.db w))) := by
  refine ⟨?_, ?_, ?_, ?_, ?_⟩
  · intro version id
    rw [get_object_db]
    exact .inl rfl
  · intro version
    rw [get_objects_db]
    exact .inl rfl
  · intro version
    rw [get_first_id_db]
    exact .inl rfl
  · intro req
    rcases set_object_db_cases req s with h | ⟨t, ht, h⟩
    · rw [h]
      exact .inl rfl
    · rw [h]
      by_cases hw : w = req.version
      · subst hw
        rw [dbLookup_dbUpdate_self, ht]
        exact .inr (.inl ⟨_, rfl⟩)
      · rw [dbLookup_dbUpdate_ne _ _ _ _ hw]
        exact .inl rfl
  · intro version
    rcases prepare_table_db_cases version s with h | ⟨n, h⟩
    · rw [h]
      exact .inl rfl
    · rw [h]
      by_cases hw : w = version
      · subst hw
        rw [dbLookup_dbUpdate_self]
        exact .inr (.inr rfl)
      · rw [dbLookup_dbUpdate_ne _ _ _ _ hw]
        exact .inl rfl

/-- C10: whenever set_object returns a successful JSON response, that
response's success field is true. -/
theorem c10_set_object_success_true (req : SetLevelObjectRequest)
    (s : EngineState) (resp : SetObjectsResonse)
    (h : (set_object req s).1 = .ok resp) : resp.success = true := by
  simp only [set_object] at h
  split at h
  · split at h
    · injection h with h2
      rw [← h2]
    · exact Except.noConfusion h
  · exact Except.noConfusion h

/-- Witness for C10: a concrete successful set_object run. -/
theorem c10_witness : (⟨1, true⟩ : SetObjectsResonse).success = true :=
  c10_set_object_success_true ⟨"1", "a", "b", "c", "d", "e"⟩
    ⟨[("1", ⟨1, []⟩)], [], []⟩ ⟨1, true⟩ rfl

end LevelServer
